import Mathlib

/-!
Verification of the TradeControl cash-flow ODS exporter against its
natural-language specification.

The definitions below are shallow embeddings of the Python source:

* `exporters/cash_statement_ods.py` — reference algebra (`_col_letter`,
  `cols_for_year_block`, `col_letters_to_index`), the `SheetBuilder`
  row counter, the section renderers (expressions, bank balances,
  category totals) and the `_post_process_totals_borders` value-cache /
  style-restamp passes;
* `data/factory.py` — repository selection (`create_repo`) together with
  the `PostgresRepository` stub of `data/postgres_repository.py`;
* `style_factory/rendering/injector.py` — the automatic-style
  materialization pass (`inject_content_styles`).

Numeric cell values are modelled as integers (`Int`); the Python code
stores them as floats, but every operation the claims exercise (addition,
subtraction, multiplication by −1) is exact on integral floats of this
size, so the embedding agrees with the source on all scenario values.
-/

namespace TCExports

/-! ### Reference algebra: `_col_letter`, `col_letters_to_index`,
`cols_for_year_block` (cash_statement_ods.py lines 16–23, 247–250,
1223–1227). -/

/-- The loop body of `_col_letter`: `while dividend > 0:
modulo = (dividend - 1) % 26; name = chr(65 + modulo) + name;
dividend = (dividend - modulo) // 26`. -/
def colLetterGo (dividend : Nat) (acc : List Char) : List Char :=
  if h : dividend = 0 then acc
  else
    let modulo := (dividend - 1) % 26
    colLetterGo ((dividend - modulo) / 26) (Char.ofNat (65 + modulo) :: acc)
termination_by dividend
decreasing_by
  have hm : (dividend - 1) % 26 ≤ dividend - 1 := Nat.mod_le _ _
  have h1 : 0 < dividend - (dividend - 1) % 26 := by omega
  have h2 : (dividend - (dividend - 1) % 26) / 26 < dividend - (dividend - 1) % 26 :=
    Nat.div_lt_self h1 (by omega)
  omega

/-- `_col_letter(index_1based)` from cash_statement_ods.py. -/
def colLetter (index1based : Nat) : String :=
  ⟨colLetterGo index1based []⟩

/-- One step of `col_letters_to_index`: `idx * 26 + (ord(ch) - ord('A') + 1)`
after `letters.upper()`. -/
def colStep (idx : Nat) (ch : Char) : Nat :=
  idx * 26 + (ch.toUpper.toNat - 65 + 1)

/-- `col_letters_to_index(letters)` from `_post_process_totals_borders`:
`idx = 0; for ch in letters.upper(): idx = idx * 26 + (ord(ch) - ord('A') + 1)`. -/
def colLettersToIndex (letters : String) : Nat :=
  letters.data.foldl colStep 0

/-- `cols_for_year_block(month_count, year_index)`:
`start = 3 + year_index * (month_count + 1); totals = start + month_count`. -/
def colsForYearBlock (monthCount yearIndex : Nat) : Nat × Nat :=
  let start := 3 + yearIndex * (monthCount + 1)
  (start, start + monthCount)

/-! ### SheetBuilder (cash_statement_ods.py lines 252–265). -/

/-- The `SheetBuilder` state: the appended rows and the `_row_index`
counter (started at 0 by `__init__`, incremented by exactly 1 in
`append_row`).  The row payload type is irrelevant to the counter, so
rows are modelled by an arbitrary type `α`. -/
structure SheetBuilder (α : Type) where
  rows : List α
  rowIndex : Nat

/-- `SheetBuilder.__init__`: empty table, `_row_index = 0`. -/
def SheetBuilder.init {α : Type} : SheetBuilder α := ⟨[], 0⟩

/-- `SheetBuilder.append_row`: append the row, bump the counter by 1. -/
def SheetBuilder.appendRow {α : Type} (sb : SheetBuilder α) (r : α) : SheetBuilder α :=
  ⟨sb.rows ++ [r], sb.rowIndex + 1⟩

/-- `SheetBuilder.current_row_index`. -/
def SheetBuilder.currentRowIndex {α : Type} (sb : SheetBuilder α) : Nat :=
  sb.rowIndex

/-- Appending a whole sequence of rows, one `append_row` at a time. -/
def SheetBuilder.appendAll {α : Type} (sb : SheetBuilder α) (rs : List α) : SheetBuilder α :=
  rs.foldl SheetBuilder.appendRow sb

/-! ### Repository selection (data/factory.py lines 5–10) and the
Postgres stub (data/postgres_repository.py). -/

inductive RepoKind where
  | sqlserver
  | postgres
deriving DecidableEq, Repr

/-- Substring test on character lists (Python's `"host=" in conn_str`). -/
def containsSub (pat : List Char) (s : List Char) : Bool :=
  match s with
  | [] => pat.isPrefixOf []
  | _ :: tl => pat.isPrefixOf s || containsSub pat tl

/-- Python `str.lower()` restricted to the ASCII range actually used by
the connection strings and `dbKind` parameters. -/
def strLower (s : String) : String :=
  ⟨s.data.map Char.toLower⟩

/-- `create_repo(conn_str, params)` from data/factory.py.  `dbKind` is
`params.get("dbKind") or ""`.  The function never raises: it selects
`PostgresRepository` when `db_kind == "postgres"` or the connection
string sniffs as Postgres, and otherwise returns `SqlServerRepository`. -/
def createRepo (connStr : String) (dbKind : String) : RepoKind :=
  if strLower dbKind = "postgres"
      || ("postgres://".data.isPrefixOf (strLower connStr).data)
      || containsSub "host=".data connStr.data then
    RepoKind.postgres
  else
    RepoKind.sqlserver

/-- `PostgresRepository.get_active_period` (and every other data method
of the stub): calls `_not_supported`, which raises `NotImplementedError`.
The constructor `__init__` itself succeeds, merely storing `conn_str`. -/
def postgresGetActivePeriod (_connStr : String) : Except String Unit :=
  Except.error "PostgresRepository is not implemented. Please configure dbKind='sqlserver' or provide a Postgres adapter."

/-! ### Bank-balance carry (`render_bank_balances`,
cash_statement_ods.py lines 785–835). -/

/-- Lookup in the dict
`{(int(b["YearNumber"]), int(b["MonthNumber"])): float(b["Balance"] or 0)
for b in balances}`.  With duplicate keys a Python dict keeps the last
entry, modelled by looking the reversed list up. -/
def balLookup (balances : List ((Int × Int) × Int)) (k : Int × Int) : Option Int :=
  balances.reverse.lookup k

/-- The year-total ("carry") value emitted by `render_bank_balances` for
one account and one year: the loop body sets
`last_val = v` for every month cell (`v` defaults to `0.0` when the
month has no balance), then
`carry = bal_map.get((year_num, 12), last_val if last_val is not None else 0.0)`. -/
def bankCarry (balances : List ((Int × Int) × Int)) (yearNum : Int)
    (months : List Int) : Int :=
  let lastVal : Option Int :=
    months.foldl (fun _ mn => some ((balLookup balances (yearNum, mn)).getD 0)) none
  match balLookup balances (yearNum, 12) with
  | some b => b
  | none => lastVal.getD 0

/-- The month cells emitted for the same account and year
(`v = bal_map.get((year_num, month), 0.0)`). -/
def bankMonthCells (balances : List ((Int × Int) × Int)) (yearNum : Int)
    (months : List Int) : List Int :=
  months.map (fun mn => (balLookup balances (yearNum, mn)).getD 0)

/-- Example bank balances: year 2024 has balances recorded at months
1–6 only, with month-6 balance 60. -/
def exBalances : List ((Int × Int) × Int) :=
  [((2024, 1), 10), ((2024, 2), 20), ((2024, 3), 30),
   ((2024, 4), 40), ((2024, 5), 50), ((2024, 6), 60)]

/-! ### Expression resolution (`render_expressions`,
cash_statement_ods.py lines 498–613). -/

/-- Python `str.strip()` (whitespace from both ends). -/
def pyStrip (cs : List Char) : List Char :=
  ((cs.dropWhile Char.isWhitespace).reverse.dropWhile Char.isWhitespace).reverse

/-- Python `str.replace(pat, rep)`: left-to-right, non-overlapping.
Fuel-driven recursion; the fuel `s.length` is always sufficient because
each step consumes at least one character of `s` when `pat` is
nonempty. -/
def replaceAllGo (fuel : Nat) (s pat rep : List Char) : List Char :=
  match fuel, s with
  | 0, s => s
  | _ + 1, [] => []
  | fuel + 1, c :: tl =>
      if pat.isPrefixOf (c :: tl) then
        rep ++ replaceAllGo fuel ((c :: tl).drop pat.length) pat rep
      else
        c :: replaceAllGo fuel tl pat rep

/-- Python `str.replace` wrapper (the empty pattern never occurs in the
call sites modelled here: every pattern is a bracketed code). -/
def replaceAll (s pat rep : List Char) : List Char :=
  if pat.isEmpty then s else replaceAllGo s.length s pat rep

/-- The `[Name]` token scan of `render_expressions` (lines 570–580):
`lb = template.find("[", i); rb = template.find("]", lb + 1);
token = template[lb+1:rb].strip(); if token and token not in tokens:
tokens.append(token); i = rb + 1`, expressed as a single left-to-right
character scan (`buf = some _` while between an unmatched `[` and the
next `]`). -/
def extractTokensGo : List Char → Option (List Char) → List String → List String
  | [], _, acc => acc
  | c :: tl, none, acc =>
      if c = '[' then extractTokensGo tl (some []) acc
      else extractTokensGo tl none acc
  | c :: tl, some buf, acc =>
      if c = ']' then
        let token := String.mk (pyStrip buf)
        extractTokensGo tl none
          (if token ≠ "" ∧ ¬ acc.contains token then acc ++ [token] else acc)
      else extractTokensGo tl (some (buf ++ [c])) acc

/-- Distinct `[Name]` tokens of a template in first-seen order. -/
def extractTokens (template : String) : List String :=
  extractTokensGo template.data none []

/-- Name→code resolution (lines 584–593): prefer
`repo.get_category_code_from_name(name)` (stripped), fall back to the
totals name→code map, fall back to the name itself. -/
def resolveName (getCode : String → Option String)
    (totalsByName : List (String × String)) (nm : String) : String :=
  let c1 := String.mk (pyStrip ((getCode nm).getD "").data)
  if c1 ≠ "" then c1
  else
    let c2 := (totalsByName.lookup nm).getD ""
    if c2 ≠ "" then c2 else nm

/-- Python regex word characters `[A-Za-z0-9_]` (for `\b`). -/
def isWordChar (c : Char) : Bool := c.isAlphanum || c = '_'

/-- Whether the previous character forbids a `\b` boundary before a
word character. -/
def prevWord : Option Char → Bool
  | some p => isWordChar p
  | none => false

/-- Head-of-list test for a literal `(`. -/
def headIsParen : List Char → Bool
  | '(' :: _ => true
  | _ => false

/-- `re.sub(r'\bif\s*\(', 'IF(', f, flags=IGNORECASE)` from
`normalize_for_calc` (lines 541–543), as a character scan.  Fuel-driven;
`cs.length` suffices since every step consumes at least one character. -/
def ifRewriteGo (fuel : Nat) (prev : Option Char) (cs : List Char) : List Char :=
  match fuel with
  | 0 => cs
  | fuel + 1 =>
    match cs with
    | [] => []
    | [c] => [c]
    | c1 :: c2 :: rest =>
        if ((c1 = 'i' || c1 = 'I') && (c2 = 'f' || c2 = 'F')
            && !(prevWord prev)
            && headIsParen (rest.dropWhile Char.isWhitespace)) then
          'I' :: 'F' :: '(' ::
            ifRewriteGo fuel (some '(') ((rest.dropWhile Char.isWhitespace).tail)
        else
          c1 :: ifRewriteGo fuel (some c1) (c2 :: rest)

/-- `normalize_for_calc(formula_text)`: the `\bif\s*\(` → `IF(` rewrite
followed by `f.replace(',', ';')`. -/
def normalizeForCalc (s : String) : String :=
  let f := ifRewriteGo s.data.length none s.data
  String.mk (f.map (fun c => if c = ',' then ';' else c))

/-- The first-seen-order deduplication used to model the Python set
`{c for c in name_to_code.values()}` (line 605); set iteration order is
arbitrary in Python, but the bracketed patterns `[code]` are disjoint,
so the replacement result does not depend on the order. -/
def dedup (l : List String) : List String :=
  l.foldl (fun acc c => if acc.contains c then acc else acc ++ [c]) []

/-- `(totals_row_by_category or {}).get(code, -1)`. -/
def regRow (registry : List (String × Int)) (code : String) : Int :=
  (registry.lookup code).getD (-1)

/-- The per-column formula text produced by `render_expressions` for one
expression template and one output column whose letter is
`colLetterStr`: token extraction, name→code mapping, `[Name]`→`[Code]`
rewriting, Calc normalization, then `[Code]` → `<letter><row>` for
registered codes and `[Code]` → `0` for unregistered ones.  No
missing-reference diagnostic is produced anywhere in the source: the
function's only output is this formula string. -/
def renderExpressionFormula (getCode : String → Option String)
    (totalsByName : List (String × String)) (registry : List (String × Int))
    (template : String) (colLetterStr : String) : String :=
  let tokens := extractTokens template
  let nameToCode := tokens.map (fun nm => (nm, resolveName getCode totalsByName nm))
  let normalized := nameToCode.foldl
    (fun s p =>
      String.mk (replaceAll s.data ("[" ++ p.1 ++ "]").data ("[" ++ p.2 ++ "]").data))
    template
  let normalized := normalizeForCalc normalized
  let codes := dedup (nameToCode.map Prod.snd)
  codes.foldl
    (fun f cd =>
      let r := regRow registry cd
      if r ≤ 0 then String.mk (replaceAll f.data ("[" ++ cd ++ "]").data "0".data)
      else String.mk (replaceAll f.data ("[" ++ cd ++ "]").data (colLetterStr ++ toString r).data))
    normalized

/-- A repository with no category-name lookup hits (models
`get_category_code_from_name` returning `None`). -/
def exGetCode : String → Option String := fun _ => none

/-! ### The value-cache / style-restamp post-processor
(`_post_process_totals_borders`, cash_statement_ods.py lines 1162–1495).

A cell is modelled by its four attributes that the passes read or write:
`table:formula`, `office:value-type` (reduced to "is it `float`?"),
`office:value` (parsed numeric value; the generator always writes
parseable floats, so the `except ValueError` branches are dead) and
`table:style-name`.  A sheet is a list of rows, each a list of
unit-width cells.  Every formula-bearing row the generator emits
consists of unit-width cells (spans and repeats occur only in the
text-only header rows), so the element index used by
`enumerate(cells, start=1)` coincides with the 1-based column index and
`find_cell_by_index` is plain positional lookup. -/

structure XCell where
  formula : Option String
  isFloat : Bool
  value : Option Int
  style : Option String
deriving Repr, DecidableEq

/-- The blank `table:table-cell` placeholder. -/
def blankCell : XCell := ⟨none, false, none, none⟩

/-- `add_number_cell` with a numeric value (lines 115–124): value-type
float, stored value, resolved style. -/
def numCell (v : Int) (st : String) : XCell := ⟨none, true, some v, some st⟩

/-- `add_number_cell` with a formula (lines 104–114): `table:formula`,
value-type float, placeholder cached value `0`, resolved style. -/
def formulaCell (f : String) (st : String) : XCell := ⟨some f, true, some 0, some st⟩

abbrev Sheet : Type := List (List XCell)

/-- 1-based cell access (`rows[r-1]`, then positional cell lookup). -/
def cellAt (sheet : Sheet) (r c : Nat) : Option XCell :=
  (List.get? sheet (r - 1)).bind (fun row => List.get? row (c - 1))

/-- `find_cell_by_index` guarded by the `1 <= row_num <= len(rows)`
checks that every shape resolver performs before dereferencing. -/
def findCell (sheet : Sheet) (row col : Nat) : Option XCell :=
  if 1 ≤ row ∧ row ≤ sheet.length then cellAt sheet row col else none

/-- Replace the cell at 1-based position `(r, c)`. -/
def updateCell (sheet : Sheet) (r c : Nat) (f : XCell → XCell) : Sheet :=
  match List.get? sheet (r - 1) with
  | none => sheet
  | some row =>
      List.set sheet (r - 1)
        (match List.get? row (c - 1) with
         | none => row
         | some x => List.set row (c - 1) (f x))

/-- `is_totals_col(col_index_1based)` (lines 1244–1249):
`rel = col - 4; rel < 0 -> False; (rel % (month_count+1)) == month_count`. -/
def isTotalsCol (monthCount c : Nat) : Bool :=
  if c < 4 then false else ((c - 4) % (monthCount + 1)) == monthCount

/-! Character-level models of the formula-shape regexes.  Each matcher
is anchored exactly like the source pattern; optional `$` and `.`
tokens, greedy letter/digit groups and backreferences are translated
literally. -/

/-- Strip a literal prefix, or fail. -/
def stripPrefixCh (pre cs : List Char) : Option (List Char) :=
  if pre.isPrefixOf cs then some (cs.drop pre.length) else none

/-- Consume an optional `$`. -/
def optDollar : List Char → List Char
  | '$' :: tl => tl
  | cs => cs

/-- `int(digits)`. -/
def digitsToNat (ds : List Char) : Nat :=
  ds.foldl (fun n c => n * 10 + (c.toNat - 48)) 0

/-- `\$?([A-Za-z]+)\$?(\d+)`: optional dollar, letters, optional
dollar, digits; returns the letter group, the digit group (kept as text
for backreference matching) and the rest. -/
def parseColRow (cs : List Char) : Option (List Char × List Char × List Char) :=
  let cs := optDollar cs
  let p := cs.span Char.isAlpha
  if p.1.isEmpty then none
  else
    let cs2 := optDollar p.2
    let q := cs2.span Char.isDigit
    if q.1.isEmpty then none else some (p.1, q.1, q.2)

/-- The `direct_ref_patterns` (lines 1290–1293):
`^of:=\.?\$?([A-Za-z]+)\$?(\d+)$` and
`^of:=\[\.\$?([A-Za-z]+)\$?(\d+)\]$`. -/
def parseDirectRef (f : List Char) : Option (List Char × Nat) :=
  match stripPrefixCh "of:=".data f with
  | none => none
  | some rest =>
      match rest with
      | '[' :: '.' :: body =>
          match parseColRow body with
          | some (ls, ds, rem) => if rem = [']'] then some (ls, digitsToNat ds) else none
          | none => none
      | _ =>
          let rest1 := match rest with
            | '.' :: tl => tl
            | cs => cs
          match parseColRow rest1 with
          | some (ls, ds, []) => some (ls, digitsToNat ds)
          | _ => none

/-- `(\*\-1)?$`: the trailing optional `*-1` multiplier. -/
def parseStarNeg1End : List Char → Option Bool
  | [] => some false
  | ['*', '-', '1'] => some true
  | _ => none

/-- The `sum_row_patterns` (lines 1294–1297):
`^of:=SUM\(\[\.\$?([A-Za-z]+)\$?(\d+):\.\$?([A-Za-z]+)\$?\2\]\)(\*\-1)?$`
and the bracket-free variant.  The second row reference is the
backreference `\2`, matched as literal text. -/
def parseSumRow (f : List Char) : Option (List Char × Nat × List Char × Bool) :=
  let bracketed :=
    match stripPrefixCh "of:=SUM([.".data f with
    | none => none
    | some r1 =>
        match parseColRow r1 with
        | some (l1, d1, rest1) =>
            match rest1 with
            | ':' :: '.' :: r2 =>
                let r2 := optDollar r2
                let p := r2.span Char.isAlpha
                if p.1.isEmpty then none
                else
                  let r3 := optDollar p.2
                  match stripPrefixCh d1 r3 with
                  | some (']' :: ')' :: tail) =>
                      (parseStarNeg1End tail).map (fun m => (l1, digitsToNat d1, p.1, m))
                  | _ => none
            | _ => none
        | none => none
  match bracketed with
  | some res => some res
  | none =>
      match stripPrefixCh "of:=SUM(".data f with
      | none => none
      | some r1 =>
          match parseColRow r1 with
          | some (l1, d1, rest1) =>
              match rest1 with
              | ':' :: r2 =>
                  let r2 := optDollar r2
                  let p := r2.span Char.isAlpha
                  if p.1.isEmpty then none
                  else
                    let r3 := optDollar p.2
                    match stripPrefixCh d1 r3 with
                    | some (')' :: tail) =>
                        (parseStarNeg1End tail).map (fun m => (l1, digitsToNat d1, p.1, m))
                    | _ => none
              | _ => none
          | none => none

/-- The `sum_col_patterns` (lines 1299–1302):
`^of:=SUM\(\[\.\$?([A-Za-z]+)\$?(\d+):\.\$?\1\$(\d+)\]\)(\*\-1)?$` and
the bracket-free variant.  Note the *mandatory* `\$` before the second
row number — the source regex has `\$`, not `\$?`, there. -/
def parseSumCol (f : List Char) : Option (List Char × Nat × Nat × Bool) :=
  let bracketed :=
    match stripPrefixCh "of:=SUM([.".data f with
    | none => none
    | some r1 =>
        match parseColRow r1 with
        | some (l1, d1, rest1) =>
            match rest1 with
            | ':' :: '.' :: r2 =>
                let r2 := optDollar r2
                match stripPrefixCh l1 r2 with
                | some ('$' :: r3) =>
                    let q := r3.span Char.isDigit
                    if q.1.isEmpty then none
                    else
                      match q.2 with
                      | ']' :: ')' :: tail =>
                          (parseStarNeg1End tail).map
                            (fun m => (l1, digitsToNat d1, digitsToNat q.1, m))
                      | _ => none
                | _ => none
            | _ => none
        | none => none
  match bracketed with
  | some res => some res
  | none =>
      match stripPrefixCh "of:=SUM(".data f with
      | none => none
      | some r1 =>
          match parseColRow r1 with
          | some (l1, d1, rest1) =>
              match rest1 with
              | ':' :: r2 =>
                  let r2 := optDollar r2
                  match stripPrefixCh l1 r2 with
                  | some ('$' :: r3) =>
                      let q := r3.span Char.isDigit
                      if q.1.isEmpty then none
                      else
                        match q.2 with
                        | ')' :: tail =>
                            (parseStarNeg1End tail).map
                              (fun m => (l1, digitsToNat d1, digitsToNat q.1, m))
                        | _ => none
                  | _ => none
              | _ => none
          | none => none

/-- One attempt of `add_sub_pat`
(`([+\-]?)\s*(?:\[\.\$?([A-Za-z]+)\$?(\d+)\]|\$?([A-Za-z]+)\$?(\d+))`,
line 1303) at the current position: optional sign, optional whitespace,
then a bracketed or plain cell reference.  Returns the parsed reference
(`isNeg`, letters, digits) and the remaining input. -/
def tryRefAt (cs : List Char) : Option ((Bool × List Char × List Char) × List Char) :=
  let signRest : Bool × List Char :=
    match cs with
    | '+' :: tl => (false, tl)
    | '-' :: tl => (true, tl)
    | _ => (false, cs)
  let cs2 := signRest.2.dropWhile Char.isWhitespace
  match cs2 with
  | '[' :: '.' :: body =>
      match parseColRow body with
      | some (ls, ds, ']' :: rest) => some ((signRest.1, ls, ds), rest)
      | _ => none
  | _ =>
      match parseColRow cs2 with
      | some (ls, ds, rest) => some ((signRest.1, ls, ds), rest)
      | _ => none

/-- `re.findall` scan for `add_sub_pat`: at each position try a match;
on success continue after it, otherwise advance one character.
Fuel-driven; `cs.length` suffices since a successful match consumes at
least the letters and digits of a reference. -/
def findRefsGo (fuel : Nat) (cs : List Char)
    (acc : List (Bool × List Char × List Char)) : List (Bool × List Char × List Char) :=
  match fuel with
  | 0 => acc
  | fuel + 1 =>
      match cs with
      | [] => acc
      | _ :: tl =>
          match tryRefAt cs with
          | some (ref, rest) => findRefsGo fuel rest (acc ++ [ref])
          | none => findRefsGo fuel tl acc

def findRefs (cs : List Char) : List (Bool × List Char × List Char) :=
  findRefsGo cs.length cs []

/-- The value of a direct reference, when its target cell carries an
`office:value`. -/
def directValue (sheet : Sheet) (f : List Char) : Option Int :=
  match parseDirectRef f with
  | some (ls, row) => (findCell sheet row (colLettersToIndex (String.mk ls))).bind XCell.value
  | none => none

/-- Row-range SUM: accumulate `office:value`s across the columns of one
row (missing cells and valueless cells are skipped), then apply the
optional `*-1`. -/
def sumRowValue (sheet : Sheet) (f : List Char) : Option Int :=
  match parseSumRow f with
  | some (l1, row, l2, mult) =>
      if 1 ≤ row ∧ row ≤ sheet.length then
        let s := colLettersToIndex (String.mk l1)
        let e := colLettersToIndex (String.mk l2)
        let lo := min s e
        let hi := max s e
        let total := (List.range (hi + 1 - lo)).foldl
          (fun t i =>
            match (cellAt sheet row (lo + i)).bind XCell.value with
            | some v => t + v
            | none => t) 0
        some (if mult then total * (-1) else total)
      else none
  | none => none

/-- Column-range SUM (the "category totals" shape): accumulate down the
rows of one column, then apply the optional `*-1`. -/
def sumColValue (sheet : Sheet) (f : List Char) : Option Int :=
  match parseSumCol f with
  | some (l1, r1, r2, mult) =>
      let ci := colLettersToIndex (String.mk l1)
      let lo := min r1 r2
      let hi := max r1 r2
      let total := (List.range (hi + 1 - lo)).foldl
        (fun t i =>
          match (findCell sheet (lo + i) ci).bind XCell.value with
          | some v => t + v
          | none => t) 0
      some (if mult then total * (-1) else total)
  | none => none

/-- The signed reference-list fallback: signed accumulation over every
reference `re.findall` discovers anywhere in the formula; fires only
when at least one reference matched. -/
def addSubValue (sheet : Sheet) (f : List Char) : Option Int :=
  let refs := findRefs f
  if refs.isEmpty then none
  else
    some (refs.foldl
      (fun t ref =>
        match (findCell sheet (digitsToNat ref.2.2)
                (colLettersToIndex (String.mk ref.2.1))).bind XCell.value with
        | some v => if ref.1 then t - v else t + v
        | none => t) 0)

/-- The shape-resolution chain of step 2 (lines 1305–1418): direct
reference, then row-range SUM, then column-range SUM, then the signed
reference list.  A direct-reference *pattern* match whose target has no
value leaves `computed = None` and falls through to the later shapes,
exactly as in the source. -/
def computeFormulaValue (sheet : Sheet) (f : List Char) : Option Int :=
  match directValue sheet f with
  | some v => some v
  | none =>
      match sumRowValue sheet f with
      | some v => some v
      | none =>
          match sumColValue sheet f with
          | some v => some v
          | none => addSubValue sheet f

/-- Step 2 per-cell action: on a totals-column formula cell whose shape
resolves, stamp `office:value-type="float"` and the computed
`office:value`. -/
def cacheCellStep (mc : Nat) (sheet : Sheet) (r c : Nat) : Sheet :=
  if isTotalsCol mc c then
    match cellAt sheet r c with
    | some cell =>
        match cell.formula with
        | some f =>
            match computeFormulaValue sheet f.data with
            | some v => updateCell sheet r c (fun x => { x with isFloat := true, value := some v })
            | none => sheet
        | none => sheet
    | none => sheet
  else sheet

/-- Step 2: the value-cache pass, rows top-to-bottom, cells
left-to-right, each cell reading the already-updated document state. -/
def valueCachePass (mc : Nat) (sheet : Sheet) : Sheet :=
  (List.range sheet.length).foldl
    (fun sh ri =>
      (List.range ((List.get? sh ri).getD []).length).foldl
        (fun sh2 ci => cacheCellStep mc sh2 (ri + 1) (ci + 1)) sh)
    sheet

/-- `cash_root(style_name)` (lines 1251–1253):
`^(CASH\d+)_(?:POS_|NEG_)?CELL(?:_BORDERED)?$` on the upper-cased
style name. -/
def cashRoot (sname : String) : Option String :=
  let u := sname.data.map Char.toUpper
  match stripPrefixCh "CASH".data u with
  | none => none
  | some rest =>
      let p := rest.span Char.isDigit
      if p.1.isEmpty then none
      else if p.2 = "_CELL".data ∨ p.2 = "_POS_CELL".data ∨ p.2 = "_NEG_CELL".data
          ∨ p.2 = "_CELL_BORDERED".data ∨ p.2 = "_POS_CELL_BORDERED".data
          ∨ p.2 = "_NEG_CELL_BORDERED".data then
        some (String.mk ("CASH".data ++ p.1))
      else none

/-- `ensure_bordered_clone(src)` (lines 1202–1221), modelled against a
fixed set of automatic-style names: return `src + "_BORDERED"` when the
clone or its source style exists, else return `src` unchanged.  The real
function also appends the freshly created clone to the automatic
styles; since a clone exists afterwards exactly when its source existed
before, the name it returns is the same under the fixed-set model. -/
def ensureBorderedClone (styleExists : String → Bool) (src : String) : String :=
  if src = "" then src
  else if styleExists (src ++ "_BORDERED") then src ++ "_BORDERED"
  else if styleExists src then src ++ "_BORDERED"
  else src

/-- Step 3 per-cell action (lines 1420–1440): on a totals-column cell
with a float cached value whose style has a `CASH<d>` root, re-stamp the
sign-correct bordered POS/NEG variant chosen from the cached value. -/
def restampCellStep (mc : Nat) (styleExists : String → Bool)
    (sheet : Sheet) (r c : Nat) : Sheet :=
  if isTotalsCol mc c then
    match cellAt sheet r c with
    | some cell =>
        if cell.isFloat then
          match cell.value with
          | some v =>
              match cashRoot (cell.style.getD "") with
              | some root =>
                  updateCell sheet r c (fun x =>
                    { x with style := some (if v < 0 then
                        ensureBorderedClone styleExists (root ++ "_NEG_CELL")
                      else
                        ensureBorderedClone styleExists (root ++ "_POS_CELL")) })
              | none => sheet
          | none => sheet
        else sheet
    | none => sheet
  else sheet

/-- Step 3: the POS/NEG restamp pass. -/
def restampPass (mc : Nat) (styleExists : String → Bool) (sheet : Sheet) : Sheet :=
  (List.range sheet.length).foldl
    (fun sh ri =>
      (List.range ((List.get? sh ri).getD []).length).foldl
        (fun sh2 ci => restampCellStep mc styleExists sh2 (ri + 1) (ci + 1)) sh)
    sheet

/-- The automatic-style names materialized by the style factory for the
`CASH0` family, as present after `apply_styles_bytes`. -/
def exStyleExists : String → Bool := fun s =>
  s = "CASH0_CELL" || s = "CASH0_POS_CELL" || s = "CASH0_NEG_CELL"

/-- The B8/B9 scenario sheet of the claim: cell B8 (row 8, column 2)
carries cached value −4321; cell B9 holds the formula `=B8` with the
construction-time placeholder cached value 0; both use the neutral
`CASH0_CELL` style. -/
def exSheetB89 : Sheet :=
  List.replicate 7 [blankCell, blankCell] ++
    [[blankCell, numCell (-4321) "CASH0_CELL"],
     [blankCell, formulaCell "of:=B8" "CASH0_CELL"]]

/-- The same scenario relocated to a per-year totals column: with
`month_count = 1` the first year's totals column is E (column 5); E8
carries −4321 and E9 holds `=E8`. -/
def exSheetE89 : Sheet :=
  List.replicate 7 [blankCell, blankCell, blankCell, blankCell, blankCell] ++
    [[blankCell, blankCell, blankCell, blankCell, numCell (-4321) "CASH0_CELL"],
     [blankCell, blankCell, blankCell, blankCell, formulaCell "of:=E8" "CASH0_CELL"]]

/-- `base_sum` / category-total formula synthesis of
`render_categories_and_summary` (lines 397–403):
`SUM([.{col}{first}:.{col}{last}])`, suffixed `*-1` exactly when the
category's `CashPolarityCode` is 0 (Expense). -/
def categoryTotalFormula (colLetterStr : String) (firstRow lastRow : Nat)
    (expense : Bool) : String :=
  let baseSum := "SUM([." ++ colLetterStr ++ toString firstRow ++ ":."
    ++ colLetterStr ++ toString lastRow ++ "])"
  if expense then baseSum ++ "*-1" else baseSum

/-- A one-year, one-month sheet (`month_count = 1`; month column D,
totals column E) holding an Expense category with three cash-code rows
at rows 5–7 (month values 3, 4, 5) and its Category Total row at row 8.
The E cells of the code rows are the per-row year-total SUM formulas;
E8 is the category-total column SUM with the Expense `*-1`. -/
def exSheetCat : Sheet :=
  List.replicate 4 [blankCell, blankCell, blankCell, blankCell, blankCell] ++
    [[blankCell, blankCell, blankCell, numCell 3 "CASH0_POS_CELL",
       formulaCell "of:=SUM([.D5:.D5])" "CASH0_POS_CELL"],
     [blankCell, blankCell, blankCell, numCell 4 "CASH0_POS_CELL",
       formulaCell "of:=SUM([.D6:.D6])" "CASH0_POS_CELL"],
     [blankCell, blankCell, blankCell, numCell 5 "CASH0_POS_CELL",
       formulaCell "of:=SUM([.D7:.D7])" "CASH0_POS_CELL"],
     [blankCell, blankCell, blankCell,
       formulaCell ("of:=" ++ categoryTotalFormula "D" 5 7 true) "CASH0_NEG_CELL",
       formulaCell ("of:=" ++ categoryTotalFormula "E" 5 7 true) "CASH0_NEG_CELL"]]

/-! ### Style materialization (`inject_content_styles`,
style_factory/rendering/injector.py lines 10–181).

The `office:automatic-styles` element is modelled as a list of XML
nodes carrying a tag, the attribute list in document order, and the
child list; an element's text content is carried as the pseudo-attribute
`"#text"`.  The registry input (`StyleRegistry.build_specs` of
mapping/registry.py) is passed in as the two spec lists; a second run of
the injector receives the same lists, because the injector never changes
any cell's `table:style-name` attribute — which is all the registry
reads.  The translation point that matters for idempotence:
`x = parent.find(tag) or ET.SubElement(parent, tag)` uses lxml
truthiness, under which an element with *no children* is falsy, so when
`find` returns a childless element the right operand still runs and a
fresh child is appended (and operated on) instead of the found one. -/

inductive XNode where
  | elem (tag : String) (attrs : List (String × String)) (children : List XNode)

def XNode.tag : XNode → String
  | .elem t _ _ => t

def XNode.attrs : XNode → List (String × String)
  | .elem _ a _ => a

def XNode.children : XNode → List XNode
  | .elem _ _ c => c

def XNode.getAttr (n : XNode) (k : String) : Option String :=
  n.attrs.lookup k

/-- lxml `elem.set(k, v)`: overwrite the existing attribute in place or
append a new one. -/
def setAttrList (attrs : List (String × String)) (k v : String) : List (String × String) :=
  if attrs.any (fun p => p.1 == k) then
    attrs.map (fun p => if p.1 == k then (k, v) else p)
  else attrs ++ [(k, v)]

def XNode.setAttr (n : XNode) (k v : String) : XNode :=
  .elem n.tag (setAttrList n.attrs k v) n.children

/-- The `if x.get(k) is None: x.set(k, v)` idiom. -/
def XNode.setMissingAttr (n : XNode) (k v : String) : XNode :=
  if (n.getAttr k).isSome then n else n.setAttr k v

def XNode.withChildren (n : XNode) (cs : List XNode) : XNode :=
  .elem n.tag n.attrs cs

/-- `find_style(tag_ns, tag_local, name_attr_ns, name)`: index of the
first child with the given tag whose `style:name` equals `name`. -/
def findStyleIdx (auto : List XNode) (tag name : String) : Option Nat :=
  auto.findIdx? (fun n => n.tag == tag && n.getAttr "style:name" == some name)

/-- lxml `parent.find(tag)` over the children list. -/
def findChildIdx (children : List XNode) (tag : String) : Option Nat :=
  children.findIdx? (fun n => n.tag == tag)

def emptyNode (tag : String) : XNode := .elem tag [] []

def nodeAt (l : List XNode) (i : Nat) : XNode :=
  (List.get? l i).getD (emptyNode "")

/-- `DataStyleSpec` of mapping/registry.py. -/
structure DataStyleSpec where
  name : String
  kind : String
  decimals : Nat

/-- `CellStyleSpec` of mapping/registry.py. -/
structure CellStyleSpec where
  name : String
  dataStyleName : String
  negRed : Bool

/-- The four `number:number` attributes `ensure_number_ds` guarantees
(`if num.get(...) is None: num.set(...)` for each). -/
def fillNumAttrs (num : XNode) (decimals : Nat) : XNode :=
  ((((num.setMissingAttr "number:decimal-places" (toString decimals)).setMissingAttr
      "number:min-decimal-places" (toString decimals)).setMissingAttr
      "number:min-integer-digits" "1").setMissingAttr
      "number:grouping" "true")

/-- The three `number:number` attributes of `ensure_percent_ds`. -/
def fillPercentNumAttrs (num : XNode) (decimals : Nat) : XNode :=
  (((num.setMissingAttr "number:decimal-places" (toString decimals)).setMissingAttr
      "number:min-decimal-places" (toString decimals)).setMissingAttr
      "number:min-integer-digits" "1")

/-- The freshly created `number:number` child of a new number style. -/
def newNumberNum (decimals : Nat) : XNode :=
  fillNumAttrs (emptyNode "number:number") decimals

/-- `num = ds.find("number:number") or ET.SubElement(ds, ...)` followed
by the missing-attribute fills: the lxml-truthiness translation.  When
the found `number:number` has no children (it never has any), it is
falsy, so a *fresh* child is appended and filled, duplicating the node. -/
def ensureNumChild (ds : XNode) (fill : XNode → XNode) : XNode :=
  match findChildIdx ds.children "number:number" with
  | some j =>
      let num := nodeAt ds.children j
      if num.children.isEmpty then
        ds.withChildren (ds.children ++ [fill (emptyNode "number:number")])
      else
        ds.withChildren (ds.children.set j (fill num))
  | none =>
      ds.withChildren (ds.children ++ [fill (emptyNode "number:number")])

/-- `ensure_number_ds(spec)` (injector.py lines 43–63). -/
def ensureNumberDs (auto : List XNode) (spec : DataStyleSpec) : List XNode :=
  match findStyleIdx auto "number:number-style" spec.name with
  | none =>
      auto ++ [XNode.elem "number:number-style" [("style:name", spec.name)]
        [newNumberNum spec.decimals]]
  | some i =>
      auto.set i (ensureNumChild (nodeAt auto i) (fillNumAttrs · spec.decimals))

/-- A `number:text` node holding the glyph `s` as its text content. -/
def textNode (s : String) : XNode := .elem "number:text" [("#text", s)] []

/-- `ensure_percent_ds(spec)` (lines 65–85): like the number style plus
a trailing `%` glyph; the glyph lookup uses a proper `is None` check,
but the `number:number` lookup has the same truthiness duplication. -/
def ensurePercentDs (auto : List XNode) (spec : DataStyleSpec) : List XNode :=
  match findStyleIdx auto "number:percentage-style" spec.name with
  | none =>
      auto ++ [XNode.elem "number:percentage-style" [("style:name", spec.name)]
        [fillPercentNumAttrs (emptyNode "number:number") spec.decimals, textNode "%"]]
  | some i =>
      let ds := ensureNumChild (nodeAt auto i) (fillPercentNumAttrs · spec.decimals)
      let ds :=
        if (findChildIdx ds.children "number:text").isSome then ds
        else ds.withChildren (ds.children ++ [textNode "%"])
      auto.set i ds

/-- The `number:number` of a fresh cash-negative data style (grouping
plus `display-factor = -1`). -/
def newCashNegNum (decimals : Nat) : XNode :=
  (newNumberNum decimals).setAttr "number:display-factor" "-1"

/-- `ensure_cash_neg_ds(spec)` (lines 87–117): parenthesized negative
display.  The existing-style branch re-fills the (truthiness-duplicated)
`number:number`, force-sets `display-factor`, and re-adds the `(` / `)`
glyphs only when absent. -/
def ensureCashNegDs (auto : List XNode) (spec : DataStyleSpec) : List XNode :=
  match findStyleIdx auto "number:number-style" spec.name with
  | none =>
      auto ++ [XNode.elem "number:number-style" [("style:name", spec.name)]
        [textNode "(", newCashNegNum spec.decimals, textNode ")"]]
  | some i =>
      let ds := ensureNumChild (nodeAt auto i)
        (fun num => (fillNumAttrs num spec.decimals).setAttr "number:display-factor" "-1")
      let hasOpen := ds.children.any
        (fun e => e.tag == "number:text" && (e.getAttr "#text").getD "" == "(")
      let hasClose := ds.children.any
        (fun e => e.tag == "number:text" && (e.getAttr "#text").getD "" == ")")
      let ds := if hasOpen then ds else ds.withChildren (textNode "(" :: ds.children)
      let ds := if hasClose then ds else ds.withChildren (ds.children ++ [textNode ")"])
      auto.set i ds

/-- A fresh `style:style` cell style (name, family, parent, empty
`style:table-cell-properties` child). -/
def newCellStyle (name : String) : XNode :=
  .elem "style:style"
    [("style:name", name), ("style:family", "table-cell"),
     ("style:parent-style-name", "Default")]
    [emptyNode "style:table-cell-properties"]

/-- `ensure_cell_style(spec)` (lines 119–131).  For `neg_red` styles the
`style:text-properties` lookup is the `find(...) or SubElement(...)`
idiom again: the found element is childless, hence falsy, hence a fresh
duplicate is appended on every run. -/
def ensureCellStyle (auto : List XNode) (spec : CellStyleSpec) : List XNode :=
  let autoIdx : List XNode × Nat :=
    match findStyleIdx auto "style:style" spec.name with
    | some i => (auto, i)
    | none => (auto ++ [newCellStyle spec.name], auto.length)
  let auto := autoIdx.1
  let i := autoIdx.2
  let cs := (nodeAt auto i).setAttr "style:data-style-name" spec.dataStyleName
  let cs :=
    if spec.negRed then
      match findChildIdx cs.children "style:text-properties" with
      | some j =>
          let tp := nodeAt cs.children j
          if tp.children.isEmpty then
            cs.withChildren (cs.children ++
              [(emptyNode "style:text-properties").setAttr "fo:color" "#FF0000"])
          else
            cs.withChildren (cs.children.set j (tp.setAttr "fo:color" "#FF0000"))
      | none =>
          cs.withChildren (cs.children ++
            [(emptyNode "style:text-properties").setAttr "fo:color" "#FF0000"])
    else cs
  auto.set i cs

/-- `ensure_cash_base_cell_style_with_maps(base, pos, neg)` (lines
133–156): find-or-create the base style, drop every existing
`style:map`, then append the two polarity-routing maps. -/
def ensureCashBaseWithMaps (auto : List XNode) (baseName posName negName : String) :
    List XNode :=
  let autoIdx : List XNode × Nat :=
    match findStyleIdx auto "style:style" baseName with
    | some i => (auto, i)
    | none => (auto ++ [newCellStyle baseName], auto.length)
  let auto := autoIdx.1
  let i := autoIdx.2
  let base := nodeAt auto i
  let kept := base.children.filter (fun n => n.tag != "style:map")
  let mapNeg := XNode.elem "style:map"
    [("style:condition", "value() < 0"), ("style:apply-style-name", negName)] []
  let mapPos := XNode.elem "style:map"
    [("style:condition", "value() >= 0"), ("style:apply-style-name", posName)] []
  auto.set i (base.withChildren (kept ++ [mapNeg, mapPos]))

/-- Python `str.endswith` on character lists. -/
def strEndsWith (s suffix : String) : Bool :=
  suffix.data.isSuffixOf s.data

/-- First-seen-order model of the Python set comprehensions over cell
spec names (iteration order of a `set` is arbitrary; the ensure calls
are keyed by distinct names, so the outcome does not depend on it). -/
def dedupNames (l : List String) : List String :=
  l.foldl (fun acc c => if acc.contains c then acc else acc ++ [c]) []

/-- The automatic-styles part of `inject_content_styles` (lines
158–179): ensure every required data style, every required cell style,
then the conditional-map base styles for each POS/NEG pair. -/
def injectAutoStyles (dataSpecs : List DataStyleSpec)
    (cellSpecs : List CellStyleSpec) (auto : List XNode) : List XNode :=
  let auto := dataSpecs.foldl
    (fun a ds =>
      if ds.kind == "number" then ensureNumberDs a ds
      else if ds.kind == "percentage" then ensurePercentDs a ds
      else if ds.kind == "cash_neg" then ensureCashNegDs a ds
      else a)
    auto
  let auto := cellSpecs.foldl (fun a cs => ensureCellStyle a cs) auto
  let posCells := dedupNames (cellSpecs.filterMap
    (fun c => if strEndsWith c.name "_POS_CELL" then some c.name else none))
  let negCells := dedupNames (cellSpecs.filterMap
    (fun c => if strEndsWith c.name "_NEG_CELL" then some c.name else none))
  posCells.foldl
    (fun a pos =>
      let base := String.mk (replaceAll pos.data "_POS_CELL".data "_CELL".data)
      let neg := String.mk (replaceAll pos.data "_POS_CELL".data "_NEG_CELL".data)
      if negCells.contains neg then ensureCashBaseWithMaps a base pos neg else a)
    auto

/-- The specs discovered for a document using the single semantic style
`NUM0_CELL` (registry.py `build_specs`). -/
def exDataSpecsNum : List DataStyleSpec := [⟨"NUM0_DS", "number", 0⟩]

def exCellSpecsNum : List CellStyleSpec := [⟨"NUM0_CELL", "NUM0_DS", false⟩]

/-- The specs discovered for a document using `CASH0_POS_CELL` and
`CASH0_NEG_CELL` (a cash style pair). -/
def exDataSpecsCash : List DataStyleSpec :=
  [⟨"CASH0_POS_DS", "number", 0⟩, ⟨"CASH0_NEG_DS", "cash_neg", 0⟩]

def exCellSpecsCash : List CellStyleSpec :=
  [⟨"CASH0_POS_CELL", "CASH0_POS_DS", false⟩, ⟨"CASH0_NEG_CELL", "CASH0_NEG_DS", true⟩]

/-- Number of `number:number` children inside the data style `name` —
exactly 1 in a well-formed data style. -/
def numberChildCount (auto : List XNode) (tag name : String) : Nat :=
  match findStyleIdx auto tag name with
  | some i => ((nodeAt auto i).children.filter (fun n => n.tag == "number:number")).length
  | none => 0

/-- Number of `style:text-properties` children inside the cell style
`name`. -/
def textPropsChildCount (auto : List XNode) (name : String) : Nat :=
  match findStyleIdx auto "style:style" name with
  | some i => ((nodeAt auto i).children.filter
      (fun n => n.tag == "style:text-properties")).length
  | none => 0

end TCExports

namespace TCExports

/-! ### Theorems for claims C1, C2, C8, C9. -/

/-- Counter increment lemma for `appendAll`. -/
theorem SheetBuilder.rowIndex_appendAll {α : Type} (sb : SheetBuilder α) (rs : List α) :
    (sb.appendAll rs).rowIndex = sb.rowIndex + rs.length := by
  induction rs generalizing sb with
  | nil => simp [SheetBuilder.appendAll]
  | cons r rs ih =>
      have h := ih (sb.appendRow r)
      simp only [SheetBuilder.appendAll, List.foldl_cons, List.length_cons]
      simp only [SheetBuilder.appendAll] at h
      rw [h]
      simp only [SheetBuilder.appendRow]
      omega

/-- C1: for every sequence of `N` rows appended via `append_row`,
`current_row_index()` immediately after the `k`-th append equals `k`,
for every `k ≤ N` (the counter starts at 0 and is incremented by
exactly 1 per appended row, spacer rows included). -/
theorem sheetBuilder_counter_correct {α : Type} (rs : List α) (k : Nat)
    (hk : k ≤ rs.length) :
    (SheetBuilder.init.appendAll (rs.take k)).currentRowIndex = k := by
  have h := SheetBuilder.rowIndex_appendAll (SheetBuilder.init (α := α)) (rs.take k)
  simp only [SheetBuilder.currentRowIndex, SheetBuilder.init] at *
  rw [h]
  simp [List.length_take, Nat.min_eq_left hk]

/-- Witness for C1 at a concrete input: three rows appended, counter
checked after the second append. -/
theorem sheetBuilder_counter_correct_witness :
    ((SheetBuilder.init.appendAll (([7, 8, 9] : List Nat).take 2)).currentRowIndex = 2) :=
  sheetBuilder_counter_correct [7, 8, 9] 2 (by decide)

/-- C2 counterexample: `cols_for_year_block(12, 0)` returns `(3, 15)`,
not the `(4, 16)` demanded by the claim's formula
`firstColumn = 4 + yearIndex*(monthCount+1)`. -/
theorem colsForYearBlock_counterexample :
    colsForYearBlock 12 0 = (3, 15) ∧ colsForYearBlock 12 0 ≠ (4, 16) := by
  constructor <;> decide

/-- C2 (amended): `cols_for_year_block` returns
`firstColumn = 3 + yearIndex*(monthCount+1)` and
`totalsColumn = firstColumn + monthCount`; a pure total function. -/
theorem colsForYearBlock_spec (monthCount yearIndex : Nat) :
    colsForYearBlock monthCount yearIndex =
      (3 + yearIndex * (monthCount + 1), 3 + yearIndex * (monthCount + 1) + monthCount) := rfl

/-! ### C9: the column-letter round trip. -/

/-- Unfolding `colLetterGo` at zero. -/
theorem colLetterGo_zero (acc : List Char) : colLetterGo 0 acc = acc := by
  rw [colLetterGo]
  rfl

/-- Unfolding `colLetterGo` at a positive dividend. -/
theorem colLetterGo_ne (d : Nat) (h : d ≠ 0) (acc : List Char) :
    colLetterGo d acc =
      colLetterGo ((d - (d - 1) % 26) / 26)
        (Char.ofNat (65 + (d - 1) % 26) :: acc) := by
  conv_lhs => rw [colLetterGo]
  simp [h]

/-- Characters emitted by the letter loop are genuine uppercase ASCII,
so `.upper()`/`toUpper` fixes them and `ord` recovers their code. -/
theorem char_upper_toNat : ∀ m : Nat, m < 26 →
    (Char.ofNat (65 + m)).toUpper.toNat = 65 + m := by decide

/-- Characters emitted by the letter loop lie in `A..Z`. -/
theorem char_range : ∀ m : Nat, m < 26 →
    65 ≤ (Char.ofNat (65 + m)).toNat ∧ (Char.ofNat (65 + m)).toNat ≤ 90 := by decide

/-- Core round-trip lemma: folding the parse step over the letters of
`d` (prepended to `acc`) starting from 0 equals folding over `acc`
starting from `d`. -/
theorem colLetterGo_fold (d : Nat) : ∀ acc : List Char,
    List.foldl colStep 0 (colLetterGo d acc) = List.foldl colStep d acc := by
  induction d using Nat.strong_induction_on with
  | _ d ih =>
    intro acc
    by_cases h : d = 0
    · subst h
      rw [colLetterGo_zero]
    · rw [colLetterGo_ne d h]
      have hmlt : (d - 1) % 26 < 26 := Nat.mod_lt _ (by norm_num)
      have hm_le : (d - 1) % 26 ≤ d - 1 := Nat.mod_le _ _
      have hdm : d - (d - 1) % 26 = 26 * ((d - 1) / 26) + 1 := by
        have := Nat.div_add_mod (d - 1) 26
        omega
      have hnext : (d - (d - 1) % 26) / 26 = (d - 1) / 26 := by
        rw [hdm, Nat.mul_add_div (by norm_num)]
        norm_num
      have hlt : (d - (d - 1) % 26) / 26 < d := by
        have h1 : 0 < d - (d - 1) % 26 := by omega
        have h2 : (d - (d - 1) % 26) / 26 < d - (d - 1) % 26 :=
          Nat.div_lt_self h1 (by norm_num)
        omega
      rw [ih _ hlt]
      simp only [List.foldl_cons]
      congr 1
      simp only [colStep]
      rw [char_upper_toNat _ hmlt, hnext]
      have := Nat.div_add_mod (d - 1) 26
      omega

/-- All letters produced by `colLetterGo` on a good accumulator are in
`A..Z` (base-26 letters, no zero/blank digit). -/
theorem colLetterGo_letters (d : Nat) : ∀ acc : List Char,
    (∀ c ∈ acc, 65 ≤ c.toNat ∧ c.toNat ≤ 90) →
    ∀ c ∈ colLetterGo d acc, 65 ≤ c.toNat ∧ c.toNat ≤ 90 := by
  induction d using Nat.strong_induction_on with
  | _ d ih =>
    intro acc hacc
    by_cases h : d = 0
    · subst h
      rw [colLetterGo_zero]
      exact hacc
    · rw [colLetterGo_ne d h]
      have hmlt : (d - 1) % 26 < 26 := Nat.mod_lt _ (by norm_num)
      have hm_le : (d - 1) % 26 ≤ d - 1 := Nat.mod_le _ _
      have hlt : (d - (d - 1) % 26) / 26 < d := by
        have h1 : 0 < d - (d - 1) % 26 := by omega
        have h2 : (d - (d - 1) % 26) / 26 < d - (d - 1) % 26 :=
          Nat.div_lt_self h1 (by norm_num)
        omega
      refine ih _ hlt _ ?_
      intro c hc
      rw [List.mem_cons] at hc
      rcases hc with rfl | hc
      · exact char_range _ hmlt
      · exact hacc c hc

/-- C9: for every column index `i` in `1..18278`, `_col_letter` maps `i`
to base-26 uppercase letters with no zero digit (1→A, 26→Z, 27→AA), and
`col_letters_to_index` parses the result back to `i`:
`col_letters_to_index` is an exact left inverse of `_col_letter` on that
range. -/
theorem colLetter_roundtrip :
    (∀ i : Nat, 1 ≤ i → i ≤ 18278 → colLettersToIndex (colLetter i) = i) ∧
    (∀ i : Nat, 1 ≤ i → i ≤ 18278 →
      ∀ c ∈ (colLetter i).data, 65 ≤ c.toNat ∧ c.toNat ≤ 90) ∧
    colLetter 1 = "A" ∧ colLetter 26 = "Z" ∧ colLetter 27 = "AA" := by
  refine ⟨?_, ?_, ?_, ?_, ?_⟩
  · intro i _ _
    have h := colLetterGo_fold i []
    simpa [colLettersToIndex, colLetter] using h
  · intro i _ _
    exact colLetterGo_letters i [] (by simp)
  · rw [colLetter, colLetterGo_ne 1 (by decide)]
    norm_num
    rw [colLetterGo_zero]
  · rw [colLetter, colLetterGo_ne 26 (by decide)]
    norm_num
    rw [colLetterGo_zero]
  · rw [colLetter, colLetterGo_ne 27 (by decide)]
    norm_num
    rw [colLetterGo_ne 1 (by decide)]
    norm_num
    rw [colLetterGo_zero]

/-- Witness for C9 at a concrete input: index 703 (= "AAA"). -/
theorem colLetter_roundtrip_witness :
    colLettersToIndex (colLetter 703) = 703 :=
  colLetter_roundtrip.1 703 (by norm_num) (by norm_num)

/-- C8 counterexample: with the unsupported data source `dbKind =
"oracle"`, `create_repo` raises nothing and silently returns the default
`SqlServerRepository`. -/
theorem createRepo_counterexample :
    createRepo "Server=.;Database=TC" "oracle" = RepoKind.sqlserver := by
  decide

/-- C8 (amended): `create_repo` never fails: it selects the
`PostgresRepository` stub exactly when `dbKind` is `postgres` or the
connection string sniffs as Postgres, and silently selects
`SqlServerRepository` as the default otherwise; the failure for the
unsupported Postgres source surfaces only when a data method of the
stub is first called (it raises `NotImplementedError`), not at
selection time. -/
theorem createRepo_amended (connStr dbKind : String) :
    (createRepo connStr dbKind = RepoKind.postgres ∨
      createRepo connStr dbKind = RepoKind.sqlserver) ∧
    (createRepo connStr dbKind = RepoKind.postgres ↔
      (strLower dbKind = "postgres"
        || ("postgres://".data.isPrefixOf (strLower connStr).data)
        || containsSub "host=".data connStr.data) = true) ∧
    (postgresGetActivePeriod connStr).isOk = false := by
  refine ⟨?_, ?_, rfl⟩
  · by_cases h : (strLower dbKind = "postgres"
        || ("postgres://".data.isPrefixOf (strLower connStr).data)
        || containsSub "host=".data connStr.data) = true
    · left; simp [createRepo, h]
    · right; simp only [createRepo]; rw [if_neg]; simpa using h
  · constructor
    · intro h
      by_contra hc
      simp only [createRepo] at h
      rw [if_neg (by simpa using hc)] at h
      exact RepoKind.noConfusion h
    · intro h
      simp [createRepo, h]

/-! ### C3: bank-balance carry. -/

/-- C3 (code bug): for an account whose year 2024 has balances recorded
at months 1–6 only (month-6 balance 60), with the usual 12-month list,
`render_bank_balances` emits 0 as the year-total carry — not the month-6
balance 60 demanded by the claim — because the loop overwrites
`last_val` with the defaulted `0.0` of every balance-less later month. -/
theorem bankCarry_code_eval :
    bankCarry exBalances 2024 [1, 2, 3, 4, 5, 6, 7, 8, 9, 10, 11, 12] = 0 ∧
    bankCarry exBalances 2024 [1, 2, 3, 4, 5, 6, 7, 8, 9, 10, 11, 12] ≠ 60 ∧
    bankMonthCells exBalances 2024 [1, 2, 3, 4, 5, 6, 7, 8, 9, 10, 11, 12]
      = [10, 20, 30, 40, 50, 60, 0, 0, 0, 0, 0, 0] := by
  refine ⟨by decide, by decide, by decide⟩

/-! ### C4: expression resolution. -/

/-- C4 counterexample: the template `"[A] - [B]"` with `A` registered at
row 10 and `B` unregistered resolves, in output column D, to the formula
text `"D10 - 0"` (the template's spaces survive the substitution), not
to the `"D10-0"` stated by the claim. -/
theorem renderExpr_counterexample :
    renderExpressionFormula exGetCode [] [("A", 10)] "[A] - [B]" "D" ≠ "D10-0" := by
  decide

/-! ### C5, C6, C10: the post-processor passes. -/

/-- `isTotalsCol` agrees with the claim's arithmetic characterization. -/
theorem isTotalsCol_iff (mc c : Nat) :
    isTotalsCol mc c = true ↔ (4 ≤ c ∧ (c - 4) % (mc + 1) = mc) := by
  simp only [isTotalsCol]
  split
  · next h => constructor
              · intro hfalse; exact absurd hfalse (by simp)
              · intro hand; omega
  · next h =>
      simp only [beq_iff_eq]
      constructor
      · intro he; exact ⟨by omega, he⟩
      · intro hand; exact hand.2

/-- `updateCell` leaves every other position unchanged. -/
theorem cellAt_updateCell_ne (sheet : Sheet) (r' c' r c : Nat) (f : XCell → XCell)
    (h : c - 1 ≠ c' - 1 ∨ r - 1 ≠ r' - 1) :
    cellAt (updateCell sheet r' c' f) r c = cellAt sheet r c := by
  unfold updateCell
  cases hrow : List.get? sheet (r' - 1) with
  | none => rfl
  | some row =>
      unfold cellAt
      rcases h with h | h
      · by_cases hrr : r - 1 = r' - 1
        · have hrow2 : sheet[r' - 1]? = some row := by
            rw [← List.get?_eq_getElem?]; exact hrow
          rw [hrr, List.get?_eq_getElem?, List.getElem?_set_self', hrow2, hrow]
          simp only [Option.map_some', Option.some_bind, Function.const_apply]
          cases hx : List.get? row (c' - 1) with
          | none => rfl
          | some x => exact List.get?_set_ne _ _ (fun he => h he.symm)
        · rw [List.get?_eq_getElem?, List.getElem?_set_ne (fun he => hrr (by omega)),
            ← List.get?_eq_getElem?]
      · rw [List.get?_eq_getElem?, List.getElem?_set_ne (fun he => h (by omega)),
          ← List.get?_eq_getElem?]

/-- The step-2 per-cell action touches only its own, totals-column
position. -/
theorem cacheCellStep_preserve (mc : Nat) (sh : Sheet) (r' c' r c : Nat)
    (hc : isTotalsCol mc c = false) :
    cellAt (cacheCellStep mc sh r' c') r c = cellAt sh r c := by
  unfold cacheCellStep
  by_cases h' : isTotalsCol mc c' = true
  · rw [if_pos h']
    have h4 : 4 ≤ c' := ((isTotalsCol_iff mc c').mp h').1
    have hne : c ≠ c' := fun he => by
      rw [he, h'] at hc; exact Bool.noConfusion hc
    split
    all_goals try rfl
    split
    all_goals try rfl
    split
    all_goals try rfl
    apply cellAt_updateCell_ne
    left
    omega
  · rw [if_neg h']

/-- The step-3 per-cell action touches only its own, totals-column
position. -/
theorem restampCellStep_preserve (mc : Nat) (styleExists : String → Bool)
    (sh : Sheet) (r' c' r c : Nat) (hc : isTotalsCol mc c = false) :
    cellAt (restampCellStep mc styleExists sh r' c') r c = cellAt sh r c := by
  unfold restampCellStep
  by_cases h' : isTotalsCol mc c' = true
  · rw [if_pos h']
    have h4 : 4 ≤ c' := ((isTotalsCol_iff mc c').mp h').1
    have hne : c ≠ c' := fun he => by
      rw [he, h'] at hc; exact Bool.noConfusion hc
    split
    all_goals try rfl
    split
    all_goals try rfl
    split
    all_goals try rfl
    split
    all_goals try rfl
    apply cellAt_updateCell_ne
    left
    omega
  · rw [if_neg h']

/-- Folding position-preserving steps preserves the position. -/
theorem cellAt_foldl_preserve {β : Type} (g : Sheet → β → Sheet) (r c : Nat)
    (hg : ∀ sh b, cellAt (g sh b) r c = cellAt sh r c) :
    ∀ (l : List β) (sh : Sheet), cellAt (l.foldl g sh) r c = cellAt sh r c := by
  intro l
  induction l with
  | nil => intro sh; rfl
  | cons b tl ih => intro sh; rw [List.foldl_cons, ih, hg]

/-- C10: the value-cache pass (step 2) and the POS/NEG restamp pass
(step 3) of `_post_process_totals_borders` modify only cells whose
1-based column index `c` satisfies `c ≥ 4` and
`(c − 4) mod (monthCount + 1) = monthCount` (the per-year totals
columns, exactly the columns `is_totals_col` accepts); every cell in any
other column — in particular every formula cell with its
construction-time placeholder cached value 0 — is left entirely
unchanged by the two passes. -/
theorem postprocess_frame :
    (∀ mc c, isTotalsCol mc c = true ↔ (4 ≤ c ∧ (c - 4) % (mc + 1) = mc)) ∧
    (∀ (mc : Nat) (styleExists : String → Bool) (sheet : Sheet) (r c : Nat),
      isTotalsCol mc c = false →
      cellAt (restampPass mc styleExists (valueCachePass mc sheet)) r c
        = cellAt sheet r c) := by
  refine ⟨isTotalsCol_iff, ?_⟩
  intro mc styleExists sheet r c hc
  have hcache : ∀ sh : Sheet, cellAt (valueCachePass mc sh) r c = cellAt sh r c := by
    intro sh
    unfold valueCachePass
    refine cellAt_foldl_preserve _ r c (fun sh' ri => ?_) _ _
    exact cellAt_foldl_preserve _ r c
      (fun sh2 ci => cacheCellStep_preserve mc sh2 (ri + 1) (ci + 1) r c hc) _ _
  have hstamp : ∀ sh : Sheet, cellAt (restampPass mc styleExists sh) r c = cellAt sh r c := by
    intro sh
    unfold restampPass
    refine cellAt_foldl_preserve _ r c (fun sh' ri => ?_) _ _
    exact cellAt_foldl_preserve _ r c
      (fun sh2 ci => restampCellStep_preserve mc styleExists sh2 (ri + 1) (ci + 1) r c hc) _ _
  rw [hstamp, hcache]

/-- Witness for C10 at a concrete input: column 2 of the B8/B9 sheet is
untouched by both passes. -/
theorem postprocess_frame_witness :
    cellAt (restampPass 12 exStyleExists (valueCachePass 12 exSheetB89)) 5 2
      = cellAt exSheetB89 5 2 :=
  postprocess_frame.2 12 exStyleExists exSheetB89 5 2 (by decide)

/-- C5 counterexample: in the B8/B9 scenario of the claim, column B is
not a per-year totals column for any month count (here 12), so both
passes skip B9: after the passes it still holds the placeholder cached
value 0 — not −4321 — and its style is still the neutral `CASH0_CELL`,
not a NEG variant. -/
theorem valueCache_B9_counterexample :
    cellAt (restampPass 12 exStyleExists (valueCachePass 12 exSheetB89)) 9 2
      = some (formulaCell "of:=B8" "CASH0_CELL") ∧
    (formulaCell "of:=B8" "CASH0_CELL").value = some 0 := by
  exact ⟨by decide, by decide⟩

/-- C5 (amended): for a formula cell holding a direct same-column
reference *in a per-year totals column* (month count 1, totals column
E), the value-cache pass copies the referenced cell's cached value and
the restamp pass re-stamps the cell's cash style to the sign-correct
NEG variant (its bordered clone) chosen from the literal cached value:
E9 = `=E8` with E8 cached −4321 ends with cached value −4321 and style
`CASH0_NEG_CELL_BORDERED`. -/
theorem valueCache_directRef_totalsCol :
    cellAt (restampPass 1 exStyleExists (valueCachePass 1 exSheetE89)) 9 5
      = some { formula := some "of:=E8", isFloat := true, value := some (-4321),
               style := some "CASH0_NEG_CELL_BORDERED" } := by
  decide

/-- C6 (code bug): the Category Total formula is synthesized as a
column-range `SUM`, `*-1`-suffixed exactly for Expense polarity (first
conjunct — that half of the claim holds), but the value-cache resolver
never recognizes the shape (its `sum_col` regex demands a literal `$`
before the second row number, which the generator never emits), falls
into the signed-reference fallback, and caches `E5 + E7 = 3 + 5 = 8`
for a column whose cash-code cells sum to 12 under Expense polarity —
instead of the −12 the claim requires. -/
theorem categoryTotal_cache_eval :
    categoryTotalFormula "E" 5 7 true = "SUM([.E5:.E7])*-1" ∧
    parseSumCol ("of:=" ++ categoryTotalFormula "E" 5 7 true).data = none ∧
    (cellAt (valueCachePass 1 exSheetCat) 5 5).map XCell.value = some (some 3) ∧
    (cellAt (valueCachePass 1 exSheetCat) 6 5).map XCell.value = some (some 4) ∧
    (cellAt (valueCachePass 1 exSheetCat) 7 5).map XCell.value = some (some 5) ∧
    (cellAt (valueCachePass 1 exSheetCat) 8 5).map XCell.value = some (some 8) ∧
    (8 : Int) ≠ -12 := by
  refine ⟨by decide, by decide, by decide, by decide, by decide, by decide, by decide⟩

/-! ### C7: style-materialization idempotence. -/

/-- C7 (code bug): re-running `inject_content_styles` on its own output
is *not* idempotent.  For a document using only `NUM0_CELL`, the first
run materializes `NUM0_DS` with one `number:number` rule node; the
second run finds the data style, but `ds.find("number:number") or
ET.SubElement(ds, ...)` treats the childless found element as falsy
(lxml truthiness), appends a duplicate `number:number`, and the
automatic styles are no longer identical.  The same happens to the
`cash_neg` data style and to the `style:text-properties` of every
red-negative cell style. -/
theorem inject_not_idempotent :
    numberChildCount (injectAutoStyles exDataSpecsNum exCellSpecsNum [])
      "number:number-style" "NUM0_DS" = 1 ∧
    numberChildCount
      (injectAutoStyles exDataSpecsNum exCellSpecsNum
        (injectAutoStyles exDataSpecsNum exCellSpecsNum []))
      "number:number-style" "NUM0_DS" = 2 ∧
    injectAutoStyles exDataSpecsNum exCellSpecsNum
        (injectAutoStyles exDataSpecsNum exCellSpecsNum [])
      ≠ injectAutoStyles exDataSpecsNum exCellSpecsNum [] ∧
    numberChildCount (injectAutoStyles exDataSpecsCash exCellSpecsCash [])
      "number:number-style" "CASH0_NEG_DS" = 1 ∧
    numberChildCount
      (injectAutoStyles exDataSpecsCash exCellSpecsCash
        (injectAutoStyles exDataSpecsCash exCellSpecsCash []))
      "number:number-style" "CASH0_NEG_DS" = 2 ∧
    textPropsChildCount
      (injectAutoStyles exDataSpecsCash exCellSpecsCash
        (injectAutoStyles exDataSpecsCash exCellSpecsCash []))
      "CASH0_NEG_CELL" = 2 := by
  refine ⟨by decide, by decide, ?_, by decide, by decide, by decide⟩
  intro h
  exact absurd
    (congrArg (fun a => numberChildCount a "number:number-style" "NUM0_DS") h)
    (by decide)

/-- C4 (amended): each bracketed code whose row is registered is
substituted with `<columnLetter><registeredRow>` and each unregistered
code with the literal `0`, all other template text (spacing included)
surviving unchanged; the scenario template yields `"D10 - 0"`.  No
missing-reference diagnostic is recorded: `render_expressions` has no
diagnostic output at all. -/
theorem renderExpr_amended :
    renderExpressionFormula exGetCode [] [("A", 10)] "[A] - [B]" "D" = "D10 - 0" ∧
    renderExpressionFormula exGetCode [] [("A", 10), ("B", 12)] "[A] - [B]" "D"
      = "D10 - D12" ∧
    renderExpressionFormula exGetCode [] [] "[A] - [B]" "D" = "0 - 0" := by
  refine ⟨by decide, by decide, by decide⟩

end TCExports
